import Mathlib

/-!
Shallow embedding of the BMP180 sensor driver (`src/lib/bmp180.py`) for the
RV_Monitor repository.

Python float arithmetic in the driver (all divisions and `2 ** k` powers are
float operations) is modelled by exact rational arithmetic on `ℚ`; a division
whose divisor is zero raises `ZeroDivisionError` in Python and is modelled by
`Option.none`.  The altitude formulas use non-integer exponents (`** 0.19025`,
`** 5.255`) and are modelled over `ℝ` with `Real.rpow`.  Python's `round(x, 1)`
(round half to even) is modelled with Mathlib's `round` (round half up); the
two agree except when `10 * x` is an exact half-integer.
Python exceptions (`RuntimeError` on a chip-id mismatch, `ValueError` in the
`mode` / `oversampling_setting` setters, `KeyError` on a failed dict lookup)
are modelled by `Except` / `Option` error results.
-/

namespace BMP180

/-- Module-level constant `_CHIP_ID = const(0x255)` (line 28). -/
def CHIP_ID : ℕ := 0x255

/-- Module-level constant `_I2C_ADDR = const(0x77)` (line 29). -/
def I2C_ADDR : ℕ := 0x77

/-- Module-level constant `_REGISTER_CHIPID = const(0xD0)` (line 31). -/
def REGISTER_CHIPID : ℕ := 0xD0

/-- Module-level constant `_REGISTER_CONTROL = const(0xF4)` (line 33). -/
def REGISTER_CONTROL : ℕ := 0xF4

/-- Module-level constant `_REGISTER_DATA = const(0xF6)` (line 34). -/
def REGISTER_DATA : ℕ := 0xF6

/-- Module-level constant `_REGISTER_AC1 = const(0xAA)` (line 35): base register
of the calibration block. -/
def REGISTER_AC1 : ℕ := 0xAA

/-- Module-level constant `TEMPERATURE_CMD = const(0x2E)` (line 38). -/
def TEMPERATURE_CMD : ℕ := 0x2E

/-- Module-level constant `PRESSURE_OVERSAMPLING_X1 = const(0x01)` (line 39). -/
def PRESSURE_OVERSAMPLING_X1 : ℤ := 0x01

/-- Module-level constant `PRESSURE_OVERSAMPLING_X2 = const(0x02)` (line 40). -/
def PRESSURE_OVERSAMPLING_X2 : ℤ := 0x02

/-- Module-level constant `PRESSURE_OVERSAMPLING_X4 = const(0x03)` (line 41). -/
def PRESSURE_OVERSAMPLING_X4 : ℤ := 0x03

/-- Module-level constant `PRESSURE_OVERSAMPLING_X8 = const(0x04)` (line 42). -/
def PRESSURE_OVERSAMPLING_X8 : ℤ := 0x04

/-- The dict `_BMP180_PRESSURE_CMD` (lines 44-49) as an association list: its
keys are the four `PRESSURE_OVERSAMPLING_X*` constants `1, 2, 3, 4` and its
values the pressure-trigger command bytes. -/
def BMP180_PRESSURE_CMD : List (ℤ × ℕ) :=
  [(PRESSURE_OVERSAMPLING_X1, 0x34),
   (PRESSURE_OVERSAMPLING_X2, 0x74),
   (PRESSURE_OVERSAMPLING_X4, 0xB4),
   (PRESSURE_OVERSAMPLING_X8, 0xF4)]

/-- Module-level constant `MODE_ULTRALOWPOWER = const(0x00)` (line 52). -/
def MODE_ULTRALOWPOWER : ℤ := 0x00

/-- Module-level constant `MODE_STANDARD = const(0x01)` (line 53). -/
def MODE_STANDARD : ℤ := 0x01

/-- Module-level constant `MODE_HIGHRES = const(0x02)` (line 54). -/
def MODE_HIGHRES : ℤ := 0x02

/-- Module-level constant `MODE_ULTRAHIGHRES = const(0x03)` (line 55). -/
def MODE_ULTRAHIGHRES : ℤ := 0x03

/-- The tuple `_BMP180_MODES` (line 57). -/
def BMP180_MODES : List ℤ :=
  [ MODE_ULTRALOWPOWER, MODE_STANDARD, MODE_HIGHRES, MODE_ULTRAHIGHRES]

/-- Signedness table of the struct format `">hhhHHHhhhhh"` of `_coeffs`
(line 101): entry `i` is `true` when the `i`-th (0-based) 16-bit word is
unpacked as unsigned (`H`) and `false` when it is unpacked as signed (`h`). -/
def COEFFS_UNSIGNED : List Bool :=
  [false, false, false, true, true, true, false, false, false, false, false]

/-- Two's-complement decoding of a 16-bit word, the semantics of a struct
`h` (signed short) field applied to an unsigned 16-bit word value. -/
def toSigned16 (w : ℕ) : ℤ :=
  if w < 32768 then (w : ℤ) else (w : ℤ) - 65536

/-- The calibration read `self._coeffs = Struct(_REGISTER_AC1, ">hhhHHHhhhhh")`
(line 101): from the 22-byte block starting at register 0xAA, build 11
big-endian 16-bit words and decode each as signed or unsigned according to
`COEFFS_UNSIGNED`. -/
def parseCoeffs (bs : List ℕ) : List ℤ :=
  (List.range 11).map fun i =>
    let w := 256 * bs.getD (2 * i) 0 + bs.getD (2 * i + 1) 0
    if COEFFS_UNSIGNED.getD i false then (w : ℤ) else toSigned16 w

/-- Calibration coefficients as used by the compensation arithmetic, in the
order of the tuple `self.coeffs_mem` (line 114): index 0 = AC1, 1 = AC2,
2 = AC3, 3 = AC4, 4 = AC5, 5 = AC6, 6 = B1, 7 = B2, 8 = MB, 9 = MC, 10 = MD. -/
structure Coeffs where
  ac1 : ℚ
  ac2 : ℚ
  ac3 : ℚ
  ac4 : ℚ
  ac5 : ℚ
  ac6 : ℚ
  b1 : ℚ
  b2 : ℚ
  mb : ℚ
  mc : ℚ
  md : ℚ
deriving DecidableEq

/-- The temperature compensation arithmetic of the `temperature` property
(lines 131-134): `X1 = ((UT - coeffs[5]) * coeffs[4]) / 2**15.0`,
`X2 = (coeffs[9] * 2**11.0) / (X1 + coeffs[10])`, `B5 = X1 + X2`,
`temp = ((B5 + 8) / 2**4.0) / 10.0`.  The division producing `X2` raises
`ZeroDivisionError` when `X1 + coeffs[10]` is zero, modelled as `none`. -/
def tempCompensation (c : Coeffs) (ut : ℚ) : Option ℚ :=
  let X1 := (ut - c.ac6) * c.ac5 / 2 ^ 15
  if X1 + c.md = 0 then none
  else
    let X2 := c.mc * 2 ^ 11 / (X1 + c.md)
    let B5 := X1 + X2
    some ((B5 + 8) / 2 ^ 4 / 10)

/-- The duplicated temperature-compensation prefix inside the `temperature`
property (lines 131-133), returning the intermediate term `B5`. -/
def tempB5 (c : Coeffs) (ut : ℚ) : Option ℚ :=
  let X1 := (ut - c.ac6) * c.ac5 / 2 ^ 15
  if X1 + c.md = 0 then none
  else
    let X2 := c.mc * 2 ^ 11 / (X1 + c.md)
    some (X1 + X2)

/-- The duplicated temperature-compensation prefix inside the `pressure`
property (lines 166-168), returning the intermediate term `B5`. -/
def pressB5 (c : Coeffs) (ut : ℚ) : Option ℚ :=
  let X1 := (ut - c.ac6) * c.ac5 / 2 ^ 15
  if X1 + c.md = 0 then none
  else
    let X2 := c.mc * 2 ^ 11 / (X1 + c.md)
    some (X1 + X2)

/-- The intermediate `X1` of the temperature computation (line 131), named so
that the zero-divisor condition of `tempCompensation` can be stated. -/
def tempX1 (c : Coeffs) (ut : ℚ) : ℚ :=
  (ut - c.ac6) * c.ac5 / 2 ^ 15

/-- The intermediate term `B4` of the pressure computation (lines 166-177),
recomputed with total rational division; it depends only on the coefficients
and the raw temperature.  When `tempX1 c ut + c.md ≠ 0` this is exactly the
`B4` the code divides by. -/
def B4val (c : Coeffs) (ut : ℚ) : ℚ :=
  let X1 := (ut - c.ac6) * c.ac5 / 2 ^ 15
  let X2 := c.mc * 2 ^ 11 / (X1 + c.md)
  let B5 := X1 + X2
  let B6 := B5 - 4000
  let X1 := c.ac3 * B6 / 2 ^ 13
  let X2 := c.b1 * (B6 * B6 / 2 ^ 12) / 2 ^ 16
  let X3 := (X1 + X2 + 2) / 2 ^ 2
  c.ac4 * (X3 + 32768) / 2 ^ 15

/-- The two-branch expression `press = (B7*2)/B4 if B7 < 2147483648.0 else
(B7/B4)*2` of the `pressure` property (lines 180-183). -/
def pressFromB7B4 (B7 B4 : ℚ) : ℚ :=
  if B7 < 2147483648 then B7 * 2 / B4 else B7 / B4 * 2

/-- The pressure compensation arithmetic of the `pressure` property
(lines 166-189), applied to raw temperature `ut`, raw pressure `up` and the
operation mode.  Divisions by `X1 + coeffs[10]` and by `B4` raise
`ZeroDivisionError` in Python when the divisor is zero, modelled as `none`;
all other divisors are fixed nonzero constants. -/
def pressureCompensation (c : Coeffs) (mode : ℤ) (ut up : ℚ) : Option ℚ :=
  let X1 := (ut - c.ac6) * c.ac5 / 2 ^ 15
  if X1 + c.md = 0 then none
  else
    let X2 := c.mc * 2 ^ 11 / (X1 + c.md)
    let B5 := X1 + X2
    let B6 := B5 - 4000
    let X1 := c.b2 * (B6 * B6) / 2 ^ 12 / 2 ^ 11
    let X2 := c.ac2 * B6 / 2 ^ 11
    let X3 := X1 + X2
    let B3 := ((c.ac1 * 4 + X3) * 2 ^ mode + 2) / 4
    let X1 := c.ac3 * B6 / 2 ^ 13
    let X2 := c.b1 * (B6 * B6 / 2 ^ 12) / 2 ^ 16
    let X3 := (X1 + X2 + 2) / 2 ^ 2
    let B4 := c.ac4 * (X3 + 32768) / 2 ^ 15
    let B7 := (up - B3) * (50000 / 2 ^ mode)
    if B4 = 0 then none
    else
      let press := if B7 < 2147483648 then B7 * 2 / B4 else B7 / B4 * 2
      let X1 := press / 2 ^ 8 * (press / 2 ^ 8)
      let X1 := X1 * 3038 / 2 ^ 16
      let X2 := -7357 * press / 2 ^ 16
      some ((press + (X1 + X2 + 3791) / 2 ^ 4) / 100)

/-- The manufacturer worked-example coefficients, as listed in the spec:
AC1=408, AC2=-72, AC3=-14383, AC4=32741, AC5=32757, AC6=23153, B1=6190, B2=4,
MB=-32768, MC=-8711, MD=2868. -/
def dsCoeffs : Coeffs :=
  ⟨408, -72, -14383, 32741, 32757, 23153, 6190, 4, -32768, -8711, 2868⟩

/-- The mode-dependent settle time (in seconds) of `_read_raw_pressure`
(lines 195-202): `sleep(0.026)` when `self._mode == PRESSURE_OVERSAMPLING_X8`,
`sleep(0.014)` when it equals `PRESSURE_OVERSAMPLING_X4`, `sleep(0.008)` when
it equals `PRESSURE_OVERSAMPLING_X2`, and `sleep(0.005)` otherwise. -/
def settleTime (mode : ℤ) : ℚ :=
  if mode = PRESSURE_OVERSAMPLING_X8 then 26 / 1000
  else if mode = PRESSURE_OVERSAMPLING_X4 then 14 / 1000
  else if mode = PRESSURE_OVERSAMPLING_X2 then 8 / 1000
  else 5 / 1000

/-- The `_read_raw_pressure` method (lines 191-208) given the mode and the
three data-register byte values: the command byte written to the control
register is `_BMP180_PRESSURE_CMD[self._mode]` (a dict lookup that raises
`KeyError`, modelled `none`, when the mode is not a key); the result is the
pair of that command byte and the assembled raw value
`((msb << 16) + (lsb << 8) + xlsb) >> (8 - mode)`, each byte masked with
`0xFF` first. -/
def readRawPressure (mode : ℤ) (msb lsb xlsb : ℕ) : Option (ℕ × ℕ) :=
  match BMP180_PRESSURE_CMD.lookup mode with
  | none => none
  | some cmd =>
      some (cmd,
        (((msb &&& 0xFF) <<< 16) + ((lsb &&& 0xFF) <<< 8) + (xlsb &&& 0xFF))
          >>> (8 - mode).toNat)

/-- Errors raised by the driver: `RuntimeError` on a chip-id mismatch in
`__init__` (lines 107-110) and `ValueError` in the two setters
(lines 244-245, 258-259). -/
inductive DriverError where
  | deviceNotFound (chipId : ℕ)
  | invalidMode (value : ℤ)
  | invalidOversampling (value : ℤ)
deriving DecidableEq

/-- Mutable driver state after construction: `self._oversampling_setting`,
`self._mode`, `self.coeffs_mem` and `self.sea_level_pressure`
(lines 112-115). -/
structure DriverState where
  oversampling_setting : ℤ
  mode : ℤ
  coeffs_mem : List ℤ
  sea_level_pressure : ℚ
deriving DecidableEq

/-- The constructor `__init__` (lines 104-115), given the value read from the
chip-id register and the 22-byte calibration block: if the chip id differs
from `_CHIP_ID` it raises `RuntimeError` before touching the calibration
registers, otherwise it fills the driver state, reading the calibration block
once.  The second component counts how many reads of the calibration block
(`self._coeffs`) the path performs. -/
def init (deviceId : ℕ) (coeffBlock : List ℕ) :
    Except DriverError DriverState × ℕ :=
  if deviceId ≠ CHIP_ID then (Except.error (DriverError.deviceNotFound deviceId), 0)
  else
    (Except.ok
      { oversampling_setting := PRESSURE_OVERSAMPLING_X8
        mode := MODE_HIGHRES
        coeffs_mem := parseCoeffs coeffBlock
        sea_level_pressure := 4053 / 4 },
     1)

/-- The `mode` setter (lines 241-246): raise `ValueError` when the value is
not in `_BMP180_MODES` — the raise precedes the assignment, so the state is
returned unchanged — otherwise store the value in `self._mode`. -/
def setMode (s : DriverState) (value : ℤ) : DriverState × Option DriverError :=
  if value ∈ BMP180_MODES then
    ({ s with mode := value }, none)
  else
    (s, some (DriverError.invalidMode value))

/-- The `oversampling_setting` setter (lines 256-260): raise `ValueError`
when the value is not a key of `_BMP180_PRESSURE_CMD` — the raise precedes
the assignment, so the state is returned unchanged — otherwise store the
value in `self._oversampling_setting`. -/
def setOversampling (s : DriverState) (value : ℤ) :
    DriverState × Option DriverError :=
  if (BMP180_PRESSURE_CMD.lookup value).isSome then
    ({ s with oversampling_setting := value }, none)
  else
    (s, some (DriverError.invalidOversampling value))

/-- Python's `round(x, 1)` (line 149) modelled with Mathlib's `round`:
round to the nearest multiple of `1/10`. -/
noncomputable def round1 (x : ℝ) : ℝ :=
  (round (x * 10) : ℤ) / 10

/-- The `altitude` getter (lines 137-149) with the measured pressure and the
stored sea-level reference as inputs:
`round(44330.0 * (1.0 - (pressure / sea_level_pressure) ** 0.19025), 1)`. -/
noncomputable def altitudeGet (pressure seaLevelPressure : ℝ) : ℝ :=
  round1 (44330 * (1 - (pressure / seaLevelPressure) ^ (0.19025 : ℝ)))

/-- The `altitude` setter (lines 151-153), returning the new sea-level
reference: `self.pressure / (1.0 - value / 44330.0) ** 5.255`. -/
noncomputable def altitudeSet (pressure value : ℝ) : ℝ :=
  pressure / (1 - value / 44330) ^ (5.255 : ℝ)

/-! Helper lemmas shared by the claim theorems. -/

/-- Unfolding lemma for `parseCoeffs` at an index below 11. -/
lemma parseCoeffs_getD (bs : List ℕ) (i : ℕ) (hi : i < 11) :
    (parseCoeffs bs).getD i 0 =
      (if COEFFS_UNSIGNED.getD i false
       then ((256 * bs.getD (2 * i) 0 + bs.getD (2 * i + 1) 0 : ℕ) : ℤ)
       else toSigned16 (256 * bs.getD (2 * i) 0 + bs.getD (2 * i + 1) 0)) := by
  unfold parseCoeffs
  rw [List.getD_eq_getElem _ _ (by simpa using hi)]
  simp

/-- Every byte-list entry read with default 0 is below 256 when all members
are. -/
lemma getD_lt_256 (bs : List ℕ) (hb : ∀ b ∈ bs, b < 256) (j : ℕ) :
    bs.getD j 0 < 256 := by
  rcases lt_or_ge j bs.length with h | h
  · rw [List.getD_eq_getElem _ _ h]
    exact hb _ (List.getElem_mem h)
  · rw [List.getD_eq_default _ _ h]
    norm_num

/-- Range of the two's-complement decoding of a 16-bit word. -/
lemma toSigned16_range (w : ℕ) (hw : w < 65536) :
    -32768 ≤ toSigned16 w ∧ toSigned16 w < 32768 := by
  unfold toSigned16
  split <;> omega

/-- Setting the altitude and reading it back with the same measured pressure
collapses, independently of the pressure, to rounding
`44330 * (1 - (1 - A/44330) ^ (5.255 * 0.19025))`; the exponent product
`5.255 * 0.19025 = 0.99976375` is not 1, which is the source of the
round-trip error. -/
lemma altitude_roundtrip (p A : ℝ) (hp : 0 < p) (hA : A < 44330) :
    altitudeGet p (altitudeSet p A) =
      round1 (44330 * (1 - (1 - A / 44330) ^ ((5.255 : ℝ) * 0.19025))) := by
  have hu : (0 : ℝ) < 1 - A / 44330 := by
    have h1 : A / 44330 < 1 := (div_lt_one (by norm_num)).mpr hA
    linarith
  have hupow : (0 : ℝ) < (1 - A / 44330) ^ (5.255 : ℝ) :=
    Real.rpow_pos_of_pos hu _
  have hcancel : p / (p / (1 - A / 44330) ^ (5.255 : ℝ)) =
      (1 - A / 44330) ^ (5.255 : ℝ) := by
    field_simp
  unfold altitudeGet altitudeSet
  rw [hcancel, Real.rpow_mul hu.le]

end BMP180

namespace BMP180

/-- Claim C1 counterexample: on the manufacturer worked-example inputs
(`dsCoeffs`, raw temperature 27898, raw pressure 23843, mode 0) the float
compensation arithmetic of the code produces neither a temperature of 16.0 °C
nor a returned pressure of 699.64 hPa (= 69964 Pa). -/
theorem C1_counterexample :
    tempCompensation dsCoeffs 27898 ≠ some 16 ∧
    (pressureCompensation dsCoeffs MODE_ULTRALOWPOWER 27898 23843).getD 0 ≠
      69964 / 100 := by
  constructor
  · norm_num [tempCompensation, dsCoeffs]
  · norm_num [pressureCompensation, dsCoeffs, MODE_ULTRALOWPOWER]

/-- Claim C1, amended: on the worked-example inputs the engine produces the
exact rational temperature 19676067850406729/1307629788856320 ≈ 15.047 °C
(not 16.0 °C; the integer datasheet algorithm gives 15.0 °C) and a returned
pressure strictly between 699.60 and 699.61 hPa, i.e. between 69960 and
69961 Pa (not 69964 Pa). -/
theorem C1_theorem :
    tempCompensation dsCoeffs 27898 =
      some (19676067850406729 / 1307629788856320) ∧
    (pressureCompensation dsCoeffs MODE_ULTRALOWPOWER 27898 23843).isSome =
      true ∧
    69960 / 100 <
      (pressureCompensation dsCoeffs MODE_ULTRALOWPOWER 27898 23843).getD 0 ∧
    (pressureCompensation dsCoeffs MODE_ULTRALOWPOWER 27898 23843).getD 0 <
      69961 / 100 := by
  refine ⟨by norm_num [tempCompensation, dsCoeffs], ?_, ?_, ?_⟩ <;>
    norm_num [pressureCompensation, dsCoeffs, MODE_ULTRALOWPOWER]

/-- Claim C2: evaluation of the code at the failing input.  The dict
`_BMP180_PRESSURE_CMD` is keyed by the oversampling constants 1–4, so indexing
it with the valid mode 0 (`MODE_ULTRALOWPOWER`) fails (`KeyError`), and modes
1–3 obtain the command bytes 0x34/0x74/0xB4 — each the byte the claim assigns
to the previous mode — instead of 0x74/0xB4/0xF4. -/
theorem C2_theorem :
    BMP180_PRESSURE_CMD.lookup MODE_ULTRALOWPOWER = none ∧
    readRawPressure MODE_ULTRALOWPOWER 0 0 0 = none ∧
    BMP180_PRESSURE_CMD.lookup MODE_STANDARD = some 0x34 ∧
    BMP180_PRESSURE_CMD.lookup MODE_HIGHRES = some 0x74 ∧
    BMP180_PRESSURE_CMD.lookup MODE_ULTRAHIGHRES = some 0xB4 := by
  decide

/-- Claim C3: evaluation of the code at the failing inputs.  The settle-time
branches compare the mode against the oversampling constants 4/3/2, so modes
0 and 1 both fall through to the same 5 ms delay (the map is not injective,
hence not strictly increasing), mode 2 waits 8 ms and mode 3 waits 14 ms —
not the distinct ≈4.5/7.5/13.5/25.5 ms ladder the claim states; the 26 ms
branch is unreachable for valid modes. -/
theorem C3_theorem :
    settleTime MODE_ULTRALOWPOWER = 5 / 1000 ∧
    settleTime MODE_STANDARD = 5 / 1000 ∧
    settleTime MODE_HIGHRES = 8 / 1000 ∧
    settleTime MODE_ULTRAHIGHRES = 14 / 1000 ∧
    settleTime MODE_ULTRALOWPOWER = settleTime MODE_STANDARD := by
  norm_num [settleTime, MODE_ULTRALOWPOWER, MODE_STANDARD, MODE_HIGHRES,
    MODE_ULTRAHIGHRES, PRESSURE_OVERSAMPLING_X2, PRESSURE_OVERSAMPLING_X4,
    PRESSURE_OVERSAMPLING_X8]

/-- Claim C4 counterexample: parsing the all-0xFF calibration block, the 3rd
16-bit word (1-indexed) decodes to -1 — it is a signed field — and the 6th
decodes to 65535 — it is an unsigned field; the signedness pattern claimed
(unsigned exactly for the 3rd, 4th and 5th words) would have produced the
second list, which the parse does not equal. -/
theorem C4_counterexample :
    parseCoeffs (List.replicate 22 255) =
      [-1, -1, -1, 65535, 65535, 65535, -1, -1, -1, -1, -1] ∧
    parseCoeffs (List.replicate 22 255) ≠
      [-1, -1, 65535, 65535, 65535, -1, -1, -1, -1, -1, -1] := by
  decide

/-- Claim C4, amended: the calibration load reads an 11-word big-endian block
at base register 0xAA, decoding every word as signed 16-bit two's complement
except the 4th, 5th and 6th words (0-based indices 3–5: AC4, AC5, AC6),
which are unsigned. -/
theorem C4_theorem (bs : List ℕ) (_hlen : bs.length = 22)
    (hb : ∀ b ∈ bs, b < 256) :
    REGISTER_AC1 = 0xAA ∧
    (parseCoeffs bs).length = 11 ∧
    (∀ i, i < 11 → (i = 3 ∨ i = 4 ∨ i = 5) →
      (parseCoeffs bs).getD i 0 =
        ((256 * bs.getD (2 * i) 0 + bs.getD (2 * i + 1) 0 : ℕ) : ℤ)) ∧
    (∀ i, i < 11 → ¬(i = 3 ∨ i = 4 ∨ i = 5) →
      (parseCoeffs bs).getD i 0 =
        toSigned16 (256 * bs.getD (2 * i) 0 + bs.getD (2 * i + 1) 0) ∧
      -32768 ≤ (parseCoeffs bs).getD i 0 ∧
      (parseCoeffs bs).getD i 0 < 32768) := by
  have hword : ∀ i : ℕ, 256 * bs.getD (2 * i) 0 + bs.getD (2 * i + 1) 0 < 65536 := by
    intro i
    have h1 := getD_lt_256 bs hb (2 * i)
    have h2 := getD_lt_256 bs hb (2 * i + 1)
    omega
  refine ⟨rfl, ?_, ?_, ?_⟩
  · unfold parseCoeffs
    simp
  · intro i hi hmem
    have hc : COEFFS_UNSIGNED.getD i false = true := by
      rcases hmem with h | h | h <;> subst h <;> rfl
    rw [parseCoeffs_getD bs i hi, hc]
    simp
  · intro i hi hmem
    have hc : COEFFS_UNSIGNED.getD i false = false := by
      interval_cases i <;> first | rfl | exact absurd (by omega) hmem
    have hr := toSigned16_range _ (hword i)
    rw [parseCoeffs_getD bs i hi, hc]
    simp only [Bool.false_eq_true, if_false]
    exact ⟨by trivial, hr.1, hr.2⟩

/-- Claim C4 witness: the amended theorem applied to the all-0xFF block. -/
theorem C4_theorem_witness :
    (List.replicate 22 255 : List ℕ).length = 22 ∧
    (∀ b ∈ (List.replicate 22 255 : List ℕ), b < 256) ∧
    (REGISTER_AC1 = 0xAA ∧
     (parseCoeffs (List.replicate 22 255)).length = 11 ∧
     (∀ i, i < 11 → (i = 3 ∨ i = 4 ∨ i = 5) →
       (parseCoeffs (List.replicate 22 255)).getD i 0 =
         ((256 * (List.replicate 22 255 : List ℕ).getD (2 * i) 0 +
           (List.replicate 22 255 : List ℕ).getD (2 * i + 1) 0 : ℕ) : ℤ)) ∧
     (∀ i, i < 11 → ¬(i = 3 ∨ i = 4 ∨ i = 5) →
       (parseCoeffs (List.replicate 22 255)).getD i 0 =
         toSigned16 (256 * (List.replicate 22 255 : List ℕ).getD (2 * i) 0 +
           (List.replicate 22 255 : List ℕ).getD (2 * i + 1) 0) ∧
       -32768 ≤ (parseCoeffs (List.replicate 22 255)).getD i 0 ∧
       (parseCoeffs (List.replicate 22 255)).getD i 0 < 32768)) :=
  ⟨by decide, by decide, C4_theorem _ (by decide) (by decide)⟩

/-- Claim C5 counterexample: the compensation arithmetic can fail.  With the
calibration coefficients all zero (each within its 16-bit range) and raw
inputs zero, the temperature divisor `X1 + MD` is zero, so both the
temperature and the pressure computation raise `ZeroDivisionError`. -/
theorem C5_counterexample :
    tempCompensation ⟨0, 0, 0, 0, 0, 0, 0, 0, 0, 0, 0⟩ 0 = none ∧
    pressureCompensation ⟨0, 0, 0, 0, 0, 0, 0, 0, 0, 0, 0⟩ 0 0 0 = none := by
  constructor
  · norm_num [tempCompensation]
  · norm_num [pressureCompensation]

/-- Claim C5, amended: the only failure mode of the compensation arithmetic is
a zero divisor — whenever `X1 + MD ≠ 0` (the temperature-path divisor) and
`B4 ≠ 0` (the pressure-path divisor), both computations complete. -/
theorem C5_theorem (c : Coeffs) (m : ℤ) (ut up : ℚ)
    (h1 : tempX1 c ut + c.md ≠ 0) (h2 : B4val c ut ≠ 0) :
    tempCompensation c ut ≠ none ∧ pressureCompensation c m ut up ≠ none := by
  simp only [tempX1] at h1
  simp only [B4val] at h2
  constructor
  · simp only [tempCompensation]
    rw [if_neg h1]
    simp
  · simp only [pressureCompensation]
    rw [if_neg h1, if_neg h2]
    simp

/-- Claim C5 witness: on the worked-example inputs both divisors are nonzero
and both computations complete. -/
theorem C5_theorem_witness :
    tempX1 dsCoeffs 27898 + dsCoeffs.md ≠ 0 ∧
    B4val dsCoeffs 27898 ≠ 0 ∧
    (tempCompensation dsCoeffs 27898 ≠ none ∧
     pressureCompensation dsCoeffs 0 27898 23843 ≠ none) :=
  ⟨by norm_num [tempX1, dsCoeffs], by norm_num [B4val, dsCoeffs],
   C5_theorem dsCoeffs 0 27898 23843 (by norm_num [tempX1, dsCoeffs])
     (by norm_num [B4val, dsCoeffs])⟩

/-- Claim C6: construction with a mismatched chip id fails with the
device-not-found error having performed no calibration-block read (count 0);
with the expected chip id (`_CHIP_ID = 0x255`) it succeeds, reading the
calibration block exactly once (count 1) and installing the default
oversampling setting, mode and sea-level reference. -/
theorem C6_theorem (deviceId : ℕ) (coeffBlock : List ℕ) :
    (deviceId ≠ CHIP_ID →
      init deviceId coeffBlock =
        (Except.error (DriverError.deviceNotFound deviceId), 0)) ∧
    (deviceId = CHIP_ID →
      init deviceId coeffBlock =
        (Except.ok
          { oversampling_setting := PRESSURE_OVERSAMPLING_X8
            mode := MODE_HIGHRES
            coeffs_mem := parseCoeffs coeffBlock
            sea_level_pressure := 4053 / 4 }, 1)) := by
  constructor
  · intro h
    simp [init, h]
  · intro h
    simp [init, h]

/-- Claim C6 witness: chip id 0 is rejected with no calibration read, and the
expected chip id is accepted with exactly one calibration read. -/
theorem C6_theorem_witness :
    ((0 : ℕ) ≠ CHIP_ID ∧
      init 0 [] = (Except.error (DriverError.deviceNotFound 0), 0)) ∧
    (init CHIP_ID [] =
      (Except.ok
        { oversampling_setting := PRESSURE_OVERSAMPLING_X8
          mode := MODE_HIGHRES
          coeffs_mem := parseCoeffs []
          sea_level_pressure := 4053 / 4 }, 1)) :=
  ⟨⟨by decide, (C6_theorem 0 []).1 (by decide)⟩,
   (C6_theorem CHIP_ID []).2 rfl⟩

/-- Claim C7: the `mode` setter rejects every value outside {0, 1, 2, 3} and
the `oversampling_setting` setter rejects every value that is not a key of
`_BMP180_PRESSURE_CMD`; in both cases the raise precedes any assignment, so
the returned state is exactly the input state. -/
theorem C7_theorem (s : DriverState) (value : ℤ) :
    (value ∉ BMP180_MODES →
      setMode s value = (s, some (DriverError.invalidMode value))) ∧
    (BMP180_PRESSURE_CMD.lookup value = none →
      setOversampling s value = (s, some (DriverError.invalidOversampling value))) := by
  constructor
  · intro h
    simp [setMode, h]
  · intro h
    simp [setOversampling, h]

/-- Claim C7 witness: the out-of-range value 9 is rejected by both setters
with the state unchanged. -/
theorem C7_theorem_witness :
    ((9 : ℤ) ∉ BMP180_MODES ∧
      setMode ⟨4, 2, [], 4053 / 4⟩ 9 =
        (⟨4, 2, [], 4053 / 4⟩, some (DriverError.invalidMode 9))) ∧
    (BMP180_PRESSURE_CMD.lookup 9 = none ∧
      setOversampling ⟨4, 2, [], 4053 / 4⟩ 9 =
        (⟨4, 2, [], 4053 / 4⟩, some (DriverError.invalidOversampling 9))) :=
  ⟨⟨by decide, (C7_theorem _ 9).1 (by decide)⟩,
   ⟨by decide, (C7_theorem _ 9).2 (by decide)⟩⟩

/-- Claim C8 counterexample: with measured pressure 1000 hPa, setting
`altitude = 1000` and reading the altitude back with the same pressure yields
999.8 m (the exact round-trip value is ≈ 999.766 m, short by ≈ 0.234 m
because 0.19025 is not the reciprocal of 5.255), which misses 1000 m by more
than the 0.1 m tolerance. -/
theorem C8_counterexample :
    ¬ |altitudeGet 1000 (altitudeSet 1000 1000) - 1000| ≤ (1 : ℝ) / 10 := by
  rw [altitude_roundtrip 1000 1000 (by norm_num) (by norm_num)]
  have hu_pos : (0 : ℝ) < 1 - 1000 / 44330 := by norm_num
  have hd_pos : (0 : ℝ) < (189 : ℝ) / 800000 := by norm_num
  have hv_pos : (0 : ℝ) < (19549 : ℝ) / 20000 := by norm_num
  have hb_pos : (0 : ℝ) < (9999965 : ℝ) / 10000000 := by norm_num
  have h_uv : (1 - 1000 / 44330 : ℝ) < 19549 / 20000 := by norm_num
  have h_ud_vd :
      ((1 : ℝ) - 1000 / 44330) ^ ((189 : ℝ) / 800000) <
        ((19549 : ℝ) / 20000) ^ ((189 : ℝ) / 800000) :=
    Real.rpow_lt_rpow hu_pos.le h_uv hd_pos
  have h_vd_b :
      ((19549 : ℝ) / 20000) ^ ((189 : ℝ) / 800000) < (9999965 : ℝ) / 10000000 := by
    by_contra hle
    push_neg at hle
    have h1 : ((9999965 : ℝ) / 10000000) ^ (800000 : ℕ) ≤
        (((19549 : ℝ) / 20000) ^ ((189 : ℝ) / 800000)) ^ (800000 : ℕ) :=
      pow_le_pow_left₀ hb_pos.le hle 800000
    have h2 : (((19549 : ℝ) / 20000) ^ ((189 : ℝ) / 800000)) ^ (800000 : ℕ) =
        ((19549 : ℝ) / 20000) ^ (189 : ℕ) := by
      rw [← Real.rpow_natCast (((19549 : ℝ) / 20000) ^ ((189 : ℝ) / 800000)) 800000,
        ← Real.rpow_mul hv_pos.le, ← Real.rpow_natCast ((19549 : ℝ) / 20000) 189]
      norm_num
    have hb3 : (1 : ℝ) + (100000 : ℕ) * (-(35 / 10000000)) ≤
        ((1 : ℝ) + -(35 / 10000000)) ^ (100000 : ℕ) :=
      one_add_mul_le_pow (by norm_num) 100000
    have h3 : ((13 : ℝ) / 20) ≤ ((9999965 : ℝ) / 10000000) ^ (100000 : ℕ) := by
      have e1 : ((1 : ℝ) + -(35 / 10000000)) = 9999965 / 10000000 := by norm_num
      have e2 : (1 : ℝ) + ((100000 : ℕ) : ℝ) * (-(35 / 10000000)) = 13 / 20 := by
        push_cast
        norm_num
      rw [e1, e2] at hb3
      exact hb3
    have h4 : ((13 : ℝ) / 20) ^ (8 : ℕ) ≤
        (((9999965 : ℝ) / 10000000) ^ (100000 : ℕ)) ^ (8 : ℕ) :=
      pow_le_pow_left₀ (by positivity) h3 8
    have h5 : (((9999965 : ℝ) / 10000000) ^ (100000 : ℕ)) ^ (8 : ℕ) =
        ((9999965 : ℝ) / 10000000) ^ (800000 : ℕ) := by
      rw [← pow_mul]
    have h6 : ((19549 : ℝ) / 20000) ^ (189 : ℕ) < ((13 : ℝ) / 20) ^ (8 : ℕ) := by
      norm_num
    rw [h2] at h1
    rw [h5] at h4
    exact absurd (h4.trans h1) (not_le.mpr h6)
  have h_ub : ((1 : ℝ) - 1000 / 44330) ^ ((189 : ℝ) / 800000) <
      (9999965 : ℝ) / 10000000 := h_ud_vd.trans h_vd_b
  have hc_eq : ((5.255 : ℝ) * 0.19025) = 1 - (189 : ℝ) / 800000 := by norm_num
  have h_cu : ((1 : ℝ) - 1000 / 44330) ^ ((5.255 : ℝ) * 0.19025) =
      ((1 : ℝ) - 1000 / 44330) / ((1 : ℝ) - 1000 / 44330) ^ ((189 : ℝ) / 800000) := by
    rw [hc_eq, Real.rpow_sub hu_pos, Real.rpow_one]
  have h_lb : ((1 : ℝ) - 1000 / 44330) / ((9999965 : ℝ) / 10000000) <
      ((1 : ℝ) - 1000 / 44330) ^ ((5.255 : ℝ) * 0.19025) := by
    rw [h_cu]
    exact div_lt_div_of_pos_left hu_pos (Real.rpow_pos_of_pos hu_pos _) h_ub
  have h_E : 44330 * (1 - ((1 : ℝ) - 1000 / 44330) ^ ((5.255 : ℝ) * 0.19025)) <
      99985 / 100 := by
    have hm : 44330 * ((1 : ℝ) - ((1 : ℝ) - 1000 / 44330) / ((9999965 : ℝ) / 10000000)) <
        99985 / 100 := by norm_num
    nlinarith [h_lb]
  have h_round : round1 (44330 * (1 - ((1 : ℝ) - 1000 / 44330) ^ ((5.255 : ℝ) * 0.19025))) ≤
      9998 / 10 := by
    unfold round1
    have hfl : round (44330 * (1 - ((1 : ℝ) - 1000 / 44330) ^ ((5.255 : ℝ) * 0.19025)) * 10) ≤
        9998 := by
      have hlt : (⌊44330 * (1 - ((1 : ℝ) - 1000 / 44330) ^ ((5.255 : ℝ) * 0.19025)) * 10 +
          1 / 2⌋ : ℤ) < 9999 := by
        apply Int.floor_lt.mpr
        push_cast
        linarith
      rw [round_eq]
      omega
    have hfl2 : ((round (44330 * (1 - ((1 : ℝ) - 1000 / 44330) ^ ((5.255 : ℝ) * 0.19025)) * 10) : ℤ) : ℝ) ≤
        9998 := by exact_mod_cast hfl
    linarith
  intro habs
  have hge : 1000 - round1 (44330 * (1 - ((1 : ℝ) - 1000 / 44330) ^ ((5.255 : ℝ) * 0.19025))) ≤
      |round1 (44330 * (1 - ((1 : ℝ) - 1000 / 44330) ^ ((5.255 : ℝ) * 0.19025))) - 1000| := by
    rw [abs_sub_comm]
    exact le_abs_self _
  linarith

/-- Claim C8, amended: for any measured pressure `p > 0` and any altitude
`A < 44330` in the formula's domain, setting `altitude = A` and reading the
altitude back with the same pressure `p` returns
`round1 (44330 * (1 - (1 - A/44330) ^ (5.255 * 0.19025)))` — independent of
`p`, but reproducing `A` only up to the systematic error coming from
`5.255 * 0.19025 = 0.99976375 ≠ 1`, which exceeds the 0.1 m rounding
tolerance for large altitudes. -/
theorem C8_theorem (p A : ℝ) (hp : 0 < p) (hA : A < 44330) :
    altitudeGet p (altitudeSet p A) =
      round1 (44330 * (1 - (1 - A / 44330) ^ ((5.255 : ℝ) * 0.19025))) :=
  altitude_roundtrip p A hp hA

/-- Claim C8 witness: the amended round-trip identity evaluated at pressure 1
and altitude 0. -/
theorem C8_theorem_witness :
    (0 : ℝ) < 1 ∧ (0 : ℝ) < 44330 ∧
    altitudeGet 1 (altitudeSet 1 0) =
      round1 (44330 * (1 - (1 - 0 / 44330) ^ ((5.255 : ℝ) * 0.19025))) :=
  ⟨by norm_num, by norm_num, C8_theorem 1 0 (by norm_num) (by norm_num)⟩

/-- Claim C9: over exact arithmetic the two branch expressions of the
pressure formula agree for every `B7` and nonzero `B4` — `(B7*2)/B4` equals
`(B7/B4)*2` — so the branch on `B7 < 2^31` never changes the computed value. -/
theorem C9_theorem (B7 B4 : ℚ) (_h : B4 ≠ 0) :
    B7 * 2 / B4 = B7 / B4 * 2 ∧ pressFromB7B4 B7 B4 = B7 * 2 / B4 := by
  constructor
  · ring
  · unfold pressFromB7B4
    split
    · rfl
    · ring

/-- Claim C9 witness: the branch expressions agree at the boundary value
`B7 = 2^31` with `B4 = 3`. -/
theorem C9_theorem_witness :
    (3 : ℚ) ≠ 0 ∧
    ((2147483648 : ℚ) * 2 / 3 = 2147483648 / 3 * 2 ∧
      pressFromB7B4 2147483648 3 = 2147483648 * 2 / 3) :=
  ⟨by norm_num, C9_theorem 2147483648 3 (by norm_num)⟩

/-- Claim C10: the temperature-compensation prefix duplicated inside the
`pressure` property computes exactly the same `B5` (including the same
zero-divisor failure cases) as the `temperature` property, for every
coefficient set and raw temperature. -/
theorem C10_theorem (c : Coeffs) (ut : ℚ) : pressB5 c ut = tempB5 c ut :=
  rfl

end BMP180
